import Mathlib

/-!
Verification of `lambda/index.py` (the `lambda_handler` request forwarder).

The handler is embedded shallowly:
* JSON values are the inductive `JValue`; Python's `json.dumps` is `jsonDumps`
  (default separators `", "` / `": "`, `ensure_ascii=True`).
* `json.loads` on the inbound `event.body` string is abstracted: a string body
  is represented by its parse outcome (`BodyVal.str : Option JValue`), since
  the claims quantify over parse outcomes, not over the JSON grammar itself.
  Likewise `response.json()` on the backend reply is the `json` field of
  `HttpResponse`.
* Python exceptions are the inductive `PyExc`; fallible steps return
  `Except PyExc _` and the outer `try/except` of the source is the final
  `match` in `lambda_handler`.
* The single outbound `requests.post` is abstracted by its outcome
  `PostOutcome` (timeout / connection error / an `HttpResponse`), passed to the
  handler as a parameter.  `requests` semantics modelled: `raise_for_status`
  raises `HTTPError` (carrying the response) exactly for status 400..599;
  `response.json()` on an unparsable body raises
  `requests.exceptions.JSONDecodeError`, which since requests 2.27 is a
  `RequestException` subclass (and a `ValueError` subclass) whose `response`
  attribute is `None`.
-/

namespace SimpleChat

/-- JSON values (numbers restricted to integers: every number appearing in the
handler's own constructions is an integer; caller-supplied floats are out of
scope of the claims). -/
inductive JValue where
  | null : JValue
  | bool : Bool → JValue
  | num : Int → JValue
  | str : String → JValue
  | arr : List JValue → JValue
  | obj : List (String × JValue) → JValue
deriving Repr

/-- Lowercase hex digit, as produced by Python's `json.dumps` escapes. -/
def hexDigit (n : Nat) : Char :=
  if n < 10 then Char.ofNat (48 + n) else Char.ofNat (87 + n)

/-- Four lowercase hex digits. -/
def hex4 (n : Nat) : String :=
  String.mk [hexDigit (n / 4096 % 16), hexDigit (n / 256 % 16),
             hexDigit (n / 16 % 16), hexDigit (n % 16)]

/-- One character of a JSON string, escaped as Python's `json.dumps` does with
`ensure_ascii=True`: `\" \\ \n \r \t \b \f`, `\u00xx` for other control
characters, printable ASCII verbatim, `\uxxxx` (with surrogate pairs beyond
the BMP) for everything else. -/
def escChar (c : Char) : String :=
  if c = '"' then "\\\""
  else if c = '\\' then "\\\\"
  else if c = '\n' then "\\n"
  else if c = '\r' then "\\r"
  else if c = '\t' then "\\t"
  else if c.toNat = 8 then "\\b"
  else if c.toNat = 12 then "\\f"
  else if c.toNat < 32 then "\\u" ++ hex4 c.toNat
  else if c.toNat < 127 then c.toString
  else if c.toNat < 65536 then "\\u" ++ hex4 c.toNat
  else
    "\\u" ++ hex4 (55296 + (c.toNat - 65536) / 1024) ++
    "\\u" ++ hex4 (56320 + (c.toNat - 65536) % 1024)

/-- A whole string body, escaped. -/
def escString (s : String) : String :=
  s.data.foldl (fun acc c => acc ++ escChar c) ""

mutual

/-- Python `json.dumps` with its default separators `", "` and `": "`. -/
def jsonDumps : JValue → String
  | .null => "null"
  | .bool true => "true"
  | .bool false => "false"
  | .num n => toString n
  | .str s => "\"" ++ escString s ++ "\""
  | .arr xs => "[" ++ dumpsArr xs ++ "]"
  | .obj kvs => "\x7b" ++ dumpsObj kvs ++ "\x7d"

/-- Elements of a JSON array, comma-separated. -/
def dumpsArr : List JValue → String
  | [] => ""
  | [x] => jsonDumps x
  | x :: y :: rest => jsonDumps x ++ ", " ++ dumpsArr (y :: rest)

/-- Members of a JSON object, comma-separated, in insertion order. -/
def dumpsObj : List (String × JValue) → String
  | [] => ""
  | [(k, v)] => "\"" ++ escString k ++ "\": " ++ jsonDumps v
  | (k, v) :: p :: rest =>
      "\"" ++ escString k ++ "\": " ++ jsonDumps v ++ ", " ++ dumpsObj (p :: rest)

end

/-- Lookup in a Python dict represented as an insertion-ordered association
list; duplicate keys keep the last binding, as `json.loads` does. -/
def dictGet (kvs : List (String × JValue)) (k : String) : Option JValue :=
  match kvs with
  | [] => none
  | (k0, v) :: rest =>
    match dictGet rest k with
    | some w => some w
    | none => if k0 = k then some v else none

/-- Python truthiness of a JSON value (`not body` in the source). -/
def JValue.truthy : JValue → Bool
  | .null => false
  | .bool b => b
  | .num n => n != 0
  | .str s => s != ""
  | .arr xs => !xs.isEmpty
  | .obj kvs => !kvs.isEmpty

/-- A backend HTTP response as seen through `requests`.  `json` is the outcome
of `response.json()` (the JSON grammar itself is abstracted); `decodeErrMsg`
is `str(...)` of the `JSONDecodeError` that `response.json()` raises when
`json` is `none` (its exact wording depends on the body text and is not
modelled further). -/
structure HttpResponse where
  status : Nat
  text : String
  json : Option JValue
  decodeErrMsg : String

/-- Outcome of the single `requests.post` call, abstracting the network. -/
inductive PostOutcome where
  | timeout : PostOutcome
  | connError : String → PostOutcome
  | response : HttpResponse → PostOutcome

/-- The Python exceptions this handler can raise or observe.  All of them are
`Exception` subclasses (see `isException`). -/
inductive PyExc where
  | valueError : String → PyExc
  | environmentError : String → PyExc
  | typeError : String → PyExc
  | attributeError : String → PyExc
  | reqTimeout : PyExc
  | reqConnectionError : String → PyExc
  | reqHTTPError : HttpResponse → PyExc
  | reqJSONDecodeError : String → PyExc

/-- Every modelled exception class derives from Python's `Exception`, so the
source's `except (ValueError, EnvironmentError, Exception)` clause catches it. -/
def isException : PyExc → Bool
  | .valueError _ => true
  | .environmentError _ => true
  | .typeError _ => true
  | .attributeError _ => true
  | .reqTimeout => true
  | .reqConnectionError _ => true
  | .reqHTTPError _ => true
  | .reqJSONDecodeError _ => true

/-- Test `isinstance(err, requests.exceptions.Timeout)`. -/
def isReqTimeout : PyExc → Bool
  | .reqTimeout => true
  | _ => false

/-- Test `isinstance(err, requests.exceptions.RequestException)`.  Since requests
2.27, `requests.exceptions.JSONDecodeError` is a `RequestException`. -/
def isRequestException : PyExc → Bool
  | .reqTimeout => true
  | .reqConnectionError _ => true
  | .reqHTTPError _ => true
  | .reqJSONDecodeError _ => true
  | _ => false

/-- The `req_err.response` attribute: only `HTTPError` raised by `raise_for_status` carries
the response; timeouts/connection errors have none, and requests constructs
its `JSONDecodeError` without a response. -/
def excResponse : PyExc → Option HttpResponse
  | .reqHTTPError r => some r
  | _ => none

/-- Python `str(error)` (for the exception classes whose message the handler built
itself this is exact; for library exceptions the wording is abstracted by the
carried string). -/
def excStr : PyExc → String
  | .valueError m => m
  | .environmentError m => m
  | .typeError m => m
  | .attributeError m => m
  | .reqTimeout => "timed out"
  | .reqConnectionError m => m
  | .reqHTTPError r => toString r.status ++ " Error"
  | .reqJSONDecodeError m => m

/-- Python `type(error).__name__`.  `EnvironmentError` is an alias of `OSError` in
Python 3, so its instances report `OSError`. -/
def excName : PyExc → String
  | .valueError _ => "ValueError"
  | .environmentError _ => "OSError"
  | .typeError _ => "TypeError"
  | .attributeError _ => "AttributeError"
  | .reqTimeout => "Timeout"
  | .reqConnectionError _ => "ConnectionError"
  | .reqHTTPError _ => "HTTPError"
  | .reqJSONDecodeError _ => "JSONDecodeError"

/-- Status chosen by the outer handler (line 183):
`400 if isinstance(error, (ValueError, json.JSONDecodeError)) else 500`.
`requests.exceptions.JSONDecodeError` is also a `ValueError` subclass. -/
def excStatus : PyExc → Nat
  | .valueError _ => 400
  | .reqJSONDecodeError _ => 400
  | _ => 500

/-- The `body` field of the inbound event: absent, a string (represented by
its `json.loads` outcome), or an already-structured value used as-is. -/
inductive BodyVal where
  | absent : BodyVal
  | str : Option JValue → BodyVal
  | val : JValue → BodyVal

/-- The inbound event: its `body`, and the optional
`requestContext.authorizer.claims` mapping (API Gateway supplies claims as a
string-to-string mapping; it is read only for logging). -/
structure Event where
  body : BodyVal
  claims : Option (List (String × String))

/-- The reply envelope returned to the gateway: `body` is already a JSON
string. -/
structure Envelope where
  statusCode : Nat
  headers : List (String × String)
  body : String

/-- The headers literal repeated verbatim at all four return sites of the
source (lines 108-113, 135-140, 164-169, 187-192). -/
def stdHeaders : List (String × String) :=
  [("Content-Type", "application/json"),
   ("Access-Control-Allow-Origin", "*"),
   ("Access-Control-Allow-Headers",
    "Content-Type,X-Amz-Date,Authorization,X-Api-Key,X-Amz-Security-Token"),
   ("Access-Control-Allow-Methods", "OPTIONS,POST")]

/-- Lines 25-34: if `requestContext.authorizer.claims` is present, the source
reads `claims.get('email') or claims.get('cognito:username')` for a log line.
The claims mapping supports `.get`, so this never fails and has no effect on
the result. -/
def checkClaims : Option (List (String × String)) → Except PyExc Unit
  | none => Except.ok ()
  | some _ => Except.ok ()

/-- Lines 37-44: if `event.body` is a string, `json.loads` it, turning a
decode failure into `ValueError("Invalid JSON format in request body")`;
a non-string body is used as-is; an absent body becomes `{}`. -/
def parseBody : BodyVal → Except PyExc JValue
  | .str none => Except.error (.valueError "Invalid JSON format in request body")
  | .str (some j) => Except.ok j
  | .val j => Except.ok j
  | .absent => Except.ok (.obj [])

/-- Char-list version of Python `needle in haystack` on strings: does the
first list occur contiguously in the second? -/
def hasSubChars (needle : List Char) : List Char → Bool
  | [] => needle.isEmpty
  | c :: rest => needle.isPrefixOf (c :: rest) || hasSubChars needle rest

/-- Python `k in xs` for a list: membership by equality; a string compares
equal only to an equal string. -/
def listHasStr (k : String) : List JValue → Bool
  | [] => false
  | .str s :: rest => s == k || listHasStr k rest
  | _ :: rest => listHasStr k rest

/-- Python `'message' in body` for each possible body type: key lookup for a
dict, element membership for a list, substring test for a string, and
`TypeError` for anything else. -/
def pyContains (k : String) : JValue → Except PyExc Bool
  | .obj kvs => Except.ok (dictGet kvs k).isSome
  | .arr xs => Except.ok (listHasStr k xs)
  | .str s => Except.ok (hasSubChars k.data s.data)
  | _ => Except.error (.typeError "argument of type is not iterable")

/-- Lines 46-51: `if not body or 'message' not in body` raises `ValueError`
(short-circuit: truthiness first); then `body['message']` and
`body.get('conversationHistory', [])`.  Subscripting a list or string with a
string key raises `TypeError`. -/
def extractRequest (body : JValue) : Except PyExc (JValue × JValue) :=
  if body.truthy = false then
    Except.error (.valueError "Request body must contain a 'message' field.")
  else
    match pyContains "message" body with
    | Except.error e => Except.error e
    | Except.ok false =>
      Except.error (.valueError "Request body must contain a 'message' field.")
    | Except.ok true =>
      match body with
      | .obj kvs =>
        Except.ok ((dictGet kvs "message").getD .null,
                   (dictGet kvs "conversationHistory").getD (.arr []))
      | .arr _ => Except.error (.typeError "list indices must be integers or slices, not str")
      | .str _ => Except.error (.typeError "string indices must be integers")
      | _ => Except.error (.typeError "unreachable: non-iterable already rejected")

/-- Lines 58-60: `if not FASTAPI_ENDPOINT_URL` — an unset or empty endpoint
raises `EnvironmentError`. -/
def getEndpoint : Option String → Except PyExc String
  | none => Except.error (.environmentError "FastAPI endpoint URL is not configured.")
  | some u =>
    if u = "" then Except.error (.environmentError "FastAPI endpoint URL is not configured.")
    else Except.ok u

/-- Line 97-98: `fastapi_response_data.get('result')` compared with `None`.
A JSON `null` value is Python `None`, indistinguishable from an absent key. -/
def getResult (kvs : List (String × JValue)) : Option JValue :=
  match dictGet kvs "result" with
  | none => none
  | some .null => none
  | some v => some v

/-- Lines 81-101, the body of the inner `try`: the POST itself, then
`raise_for_status()` (raises `HTTPError` for status 400..599), then
`response.json()` (raises `requests.exceptions.JSONDecodeError` on a
non-JSON body, `AttributeError` on `.get` if the JSON is not an object), then
the `result` check (raises `ValueError` when absent or `None`). -/
def postAndValidate : PostOutcome → Except PyExc JValue
  | .timeout => Except.error .reqTimeout
  | .connError msg => Except.error (.reqConnectionError msg)
  | .response r =>
    if 400 ≤ r.status ∧ r.status < 600 then Except.error (.reqHTTPError r)
    else
      match r.json with
      | none => Except.error (.reqJSONDecodeError r.decodeErrMsg)
      | some (.obj kvs) =>
        match getResult kvs with
        | some v => Except.ok v
        | none => Except.error (.valueError "Invalid response format received from FastAPI.")
      | some _ => Except.error (.attributeError "object has no attribute get")

/-- Lines 106-118: the envelope returned by the `except Timeout` arm. -/
def timeoutEnvelope : Envelope :=
  ⟨504, stdHeaders,
   jsonDumps (.obj [("success", .bool false),
                    ("error", .str "The request to the backend service timed out.")])⟩

/-- Lines 133-146: the envelope returned by the `except RequestException` arm. -/
def backendErrorEnvelope (status : Nat) (detail : JValue) : Envelope :=
  ⟨status, stdHeaders,
   jsonDumps (.obj [("success", .bool false),
                    ("error", .str "Backend service error"),
                    ("detail", detail)])⟩

/-- Lines 148-175: history update and the 200 envelope. -/
def successEnvelope (message assistant : JValue) (history : List JValue) : Envelope :=
  ⟨200, stdHeaders,
   jsonDumps (.obj [("success", .bool true),
                    ("response", assistant),
                    ("conversationHistory",
                     .arr (history ++
                       [.obj [("role", .str "user"), ("content", message)],
                        .obj [("role", .str "assistant"), ("content", assistant)]]))])⟩

/-- Lines 178-198: the outer `except` arm. -/
def errorEnvelope (e : PyExc) : Envelope :=
  ⟨excStatus e, stdHeaders,
   jsonDumps (.obj [("success", .bool false),
                    ("error", .str (excStr e)),
                    ("errorType", .str (excName e))])⟩

/-- Lines 80-146, the inner `try/except`: `except Timeout` returns the 504
envelope; `except RequestException` returns the backend-error envelope, using
`req_err.response`'s own status and body when a response is attached and the
502 default with `str(req_err)` otherwise; every other exception (the
`ValueError` of line 101, the `AttributeError` of line 97) propagates. -/
def innerTry (bk : PostOutcome) : Except PyExc (Envelope ⊕ JValue) :=
  match postAndValidate bk with
  | Except.ok v => Except.ok (.inr v)
  | Except.error e =>
    if isReqTimeout e then Except.ok (.inl timeoutEnvelope)
    else if isRequestException e then
      Except.ok (.inl
        (match excResponse e with
         | some r =>
           backendErrorEnvelope r.status
             (match r.json with
              | some j => j
              | none => .str r.text)
         | none => backendErrorEnvelope 502 (.str (excStr e))))
    else Except.error e

/-- Everything before the POST (lines 21-76): claims logging, body parsing,
validation, extraction, endpoint check.  The POST of line 81 is attempted
exactly when this returns `ok`. -/
def prePhase (cfg : Option String) (ev : Event) : Except PyExc (JValue × JValue) :=
  match checkClaims ev.claims with
  | Except.error e => Except.error e
  | Except.ok () =>
    match parseBody ev.body with
    | Except.error e => Except.error e
    | Except.ok body =>
      match extractRequest body with
      | Except.error e => Except.error e
      | Except.ok (message, history) =>
        match getEndpoint cfg with
        | Except.error e => Except.error e
        | Except.ok _ => Except.ok (message, history)

/-- True exactly when the handler issues the outbound POST. -/
def backendCalled (cfg : Option String) (ev : Event) : Bool :=
  match prePhase cfg ev with
  | Except.ok _ => true
  | Except.error _ => false

/-- The body of the outer `try` (lines 21-175).  On success of the inner call
the history must support `.copy()` and `.append(...)` (lines 150-158): only a
list does; anything else raises `AttributeError`. -/
def handlerTry (cfg : Option String) (ev : Event) (bk : PostOutcome) :
    Except PyExc Envelope :=
  match prePhase cfg ev with
  | Except.error e => Except.error e
  | Except.ok (message, history) =>
    match innerTry bk with
    | Except.error e => Except.error e
    | Except.ok (.inl env) => Except.ok env
    | Except.ok (.inr assistant) =>
      match history with
      | .arr hs => Except.ok (successEnvelope message assistant hs)
      | _ => Except.error (.attributeError "object has no attribute append")

/-- The outer `try/except` made explicit: the clause
`except (ValueError, EnvironmentError, Exception)` catches an exception `e`
exactly when `isException e`; anything else would escape. -/
def lambda_handler_checked (cfg : Option String) (ev : Event) (bk : PostOutcome) :
    Except PyExc Envelope :=
  match handlerTry cfg ev bk with
  | Except.ok env => Except.ok env
  | Except.error e =>
    if isException e then Except.ok (errorEnvelope e) else Except.error e

/-- The complete `lambda_handler`, as the total function it is observed to be:
every raised exception is converted by the outer `except` arm. -/
def lambda_handler (cfg : Option String) (ev : Event) (bk : PostOutcome) : Envelope :=
  match handlerTry cfg ev bk with
  | Except.ok env => env
  | Except.error e => errorEnvelope e

/-! ## Helper lemmas -/

/-- Reading the authorizer claims never fails and never affects control flow. -/
theorem checkClaims_ok (c : Option (List (String × String))) :
    checkClaims c = Except.ok () := by
  cases c <;> rfl

/-- A successful `dictGet` needs a nonempty dict. -/
theorem dictGet_ne_nil {kvs : List (String × JValue)} {k : String} {v : JValue}
    (h : dictGet kvs k = some v) : kvs ≠ [] := by
  intro hnil
  rw [hnil] at h
  simp [dictGet] at h

/-- When the parsed body is a dict containing `message` and the endpoint is
configured, the pre-call phase succeeds with the message value and the
(defaulted) history value. -/
theorem prePhase_obj (cfg : Option String) (ev : Event)
    (kvs : List (String × JValue)) (v : JValue) (url : String)
    (hbody : parseBody ev.body = Except.ok (JValue.obj kvs))
    (hm : dictGet kvs "message" = some v)
    (hcfg : getEndpoint cfg = Except.ok url) :
    prePhase cfg ev =
      Except.ok (v, (dictGet kvs "conversationHistory").getD (JValue.arr [])) := by
  have hne : kvs.isEmpty = false := by
    cases kvs with
    | nil => exact absurd rfl (dictGet_ne_nil hm)
    | cons a l => rfl
  unfold prePhase
  rw [checkClaims_ok, hbody]
  unfold extractRequest
  simp only [JValue.truthy, hne, Bool.not_false, pyContains, hm, Option.isSome_some,
    reduceCtorEq, if_false]
  rw [hcfg]
  rfl

/-! ## Claims -/

/-- C1: for every inbound event whose body parses to a mapping containing a
non-empty string `message` `m` and a `conversationHistory` `h` (default
empty), when the endpoint is configured and the backend responds 2xx with a
JSON body whose `result` field is the string `r`, the handler returns
statusCode 200 with body
`{"success": true, "response": r, "conversationHistory": h ++ [user, assistant]}`,
and the returned history length is the input length plus 2. -/
theorem roundtrip_success (cfg : Option String) (ev : Event)
    (kvs rkvs : List (String × JValue)) (m url r txt dmsg : String)
    (h : List JValue) (s : Nat)
    (hbody : parseBody ev.body = Except.ok (JValue.obj kvs))
    (hm : dictGet kvs "message" = some (JValue.str m))
    (_hne : m ≠ "")
    (hh : (dictGet kvs "conversationHistory").getD (JValue.arr []) = JValue.arr h)
    (hcfg : getEndpoint cfg = Except.ok url)
    (hs1 : 200 ≤ s) (hs2 : s < 300)
    (hr : dictGet rkvs "result" = some (JValue.str r)) :
    lambda_handler cfg ev (.response ⟨s, txt, some (.obj rkvs), dmsg⟩) =
      ⟨200, stdHeaders,
       jsonDumps (.obj [("success", .bool true), ("response", .str r),
         ("conversationHistory",
          .arr (h ++ [.obj [("role", .str "user"), ("content", .str m)],
                      .obj [("role", .str "assistant"), ("content", .str r)]]))])⟩ ∧
    (h ++ [JValue.obj [("role", JValue.str "user"), ("content", JValue.str m)],
           JValue.obj [("role", JValue.str "assistant"), ("content", JValue.str r)]]).length
      = h.length + 2 := by
  have hcond : ¬ (400 ≤ s ∧ s < 600) := by omega
  have hinner : innerTry (.response ⟨s, txt, some (.obj rkvs), dmsg⟩)
      = Except.ok (Sum.inr (JValue.str r)) := by
    simp only [innerTry, postAndValidate, hcond, if_false, getResult, hr]
  constructor
  · unfold lambda_handler handlerTry
    rw [prePhase_obj cfg ev kvs (JValue.str m) url hbody hm hcfg, hh, hinner]
    rfl
  · simp

/-- C1 witness: the concrete round trip of the spec, message `"hi"`, empty
history, backend reply `{"result": "hello"}`. -/
theorem roundtrip_success_witness :
    lambda_handler (some "https://api.example.com/process")
        ⟨.val (.obj [("message", .str "hi"), ("conversationHistory", .arr [])]), none⟩
        (.response ⟨200, "ignored", some (.obj [("result", .str "hello")]), "d"⟩) =
      ⟨200, stdHeaders,
       jsonDumps (.obj [("success", .bool true), ("response", .str "hello"),
         ("conversationHistory",
          .arr ([] ++ [.obj [("role", .str "user"), ("content", .str "hi")],
                       .obj [("role", .str "assistant"), ("content", .str "hello")]]))])⟩ ∧
    (([] : List JValue) ++
       [JValue.obj [("role", JValue.str "user"), ("content", JValue.str "hi")],
        JValue.obj [("role", JValue.str "assistant"), ("content", JValue.str "hello")]]).length
      = ([] : List JValue).length + 2 :=
  roundtrip_success (some "https://api.example.com/process")
    ⟨.val (.obj [("message", .str "hi"), ("conversationHistory", .arr [])]), none⟩
    [("message", .str "hi"), ("conversationHistory", .arr [])]
    [("result", .str "hello")] "hi" "https://api.example.com/process" "hello"
    "ignored" "d" [] 200 rfl rfl (by decide) rfl rfl (by decide) (by decide) rfl

/-- C6: when the pre-call phase succeeds (so the POST is issued) and the
outbound call times out, the handler returns statusCode 504 with a body
indicating `success: false`. -/
theorem timeout_yields_504 (cfg : Option String) (ev : Event)
    (mh : JValue × JValue)
    (hpre : prePhase cfg ev = Except.ok mh) :
    lambda_handler cfg ev .timeout =
      ⟨504, stdHeaders,
       jsonDumps (.obj [("success", .bool false),
         ("error", .str "The request to the backend service timed out.")])⟩ := by
  unfold lambda_handler handlerTry
  rw [hpre]
  rfl

/-- C6 witness: a valid request with the endpoint configured, timing out. -/
theorem timeout_yields_504_witness :
    lambda_handler (some "https://api.example.com/process")
        ⟨.val (.obj [("message", .str "hi")]), none⟩ .timeout =
      ⟨504, stdHeaders,
       jsonDumps (.obj [("success", .bool false),
         ("error", .str "The request to the backend service timed out.")])⟩ :=
  timeout_yields_504 (some "https://api.example.com/process")
    ⟨.val (.obj [("message", .str "hi")]), none⟩
    (JValue.str "hi", JValue.arr []) rfl

/-- C7: for every inbound event carrying a valid non-empty `message`, if the
configured endpoint URL is unset or empty the handler returns statusCode 500
and performs no outbound call. -/
theorem unset_endpoint_yields_500_no_call (cfg : Option String) (ev : Event)
    (kvs : List (String × JValue)) (m : String) (bk : PostOutcome)
    (hbody : parseBody ev.body = Except.ok (JValue.obj kvs))
    (hm : dictGet kvs "message" = some (JValue.str m))
    (_hne : m ≠ "")
    (hcfg : cfg = none ∨ cfg = some "") :
    (lambda_handler cfg ev bk).statusCode = 500 ∧ backendCalled cfg ev = false := by
  have hend : getEndpoint cfg =
      Except.error (.environmentError "FastAPI endpoint URL is not configured.") := by
    rcases hcfg with h | h <;> rw [h] <;> rfl
  have hne' : kvs.isEmpty = false := by
    cases kvs with
    | nil => exact absurd rfl (dictGet_ne_nil hm)
    | cons a l => rfl
  have hpre : prePhase cfg ev =
      Except.error (.environmentError "FastAPI endpoint URL is not configured.") := by
    unfold prePhase
    rw [checkClaims_ok, hbody]
    unfold extractRequest
    simp only [JValue.truthy, hne', Bool.not_false, pyContains, hm, Option.isSome_some,
      reduceCtorEq, if_false]
    rw [hend]
  constructor
  · unfold lambda_handler handlerTry
    rw [hpre]
    rfl
  · unfold backendCalled
    rw [hpre]

/-- C7 witness: a valid request with the endpoint variable unset. -/
theorem unset_endpoint_yields_500_no_call_witness :
    (lambda_handler none ⟨.val (.obj [("message", .str "hi")]), none⟩
        (.response ⟨200, "t", some (.obj [("result", .str "ok")]), "d"⟩)).statusCode = 500 ∧
    backendCalled none ⟨.val (.obj [("message", .str "hi")]), none⟩ = false :=
  unset_endpoint_yields_500_no_call none ⟨.val (.obj [("message", .str "hi")]), none⟩
    [("message", .str "hi")] "hi"
    (.response ⟨200, "t", some (.obj [("result", .str "ok")]), "d"⟩)
    rfl rfl (by decide) (Or.inl rfl)

/-- C3 counterexample: the backend responds 200 with the valid JSON object
`{"other": 1}`, which lacks `result`; the claim predicts 502, but the
`ValueError` of line 101 escapes the inner `except` arms and the outer
handler maps it to 400. -/
theorem missing_result_yields_400_cex :
    (lambda_handler (some "https://api.example.com/process")
        ⟨.val (.obj [("message", .str "hi")]), none⟩
        (.response ⟨200, "t", some (.obj [("other", .num 1)]), "d"⟩)).statusCode
      = 400 := by
  rfl

/-- C3 amended: after the backend responds 2xx, a body that is not valid JSON
yields 502 with `success: false` (the `requests` `JSONDecodeError` is caught
as a `RequestException` carrying no response), while a valid JSON object
lacking the `result` field yields 400 with `success: false` (its `ValueError`
reaches the generic outer handler). -/
theorem invalid_backend_response_codes (cfg : Option String) (ev : Event)
    (mh : JValue × JValue) (s : Nat) (txt dmsg : String)
    (rkvs : List (String × JValue))
    (hpre : prePhase cfg ev = Except.ok mh)
    (hs1 : 200 ≤ s) (hs2 : s < 300)
    (hr : dictGet rkvs "result" = none) :
    lambda_handler cfg ev (.response ⟨s, txt, none, dmsg⟩) =
      ⟨502, stdHeaders,
       jsonDumps (.obj [("success", .bool false),
         ("error", .str "Backend service error"),
         ("detail", .str dmsg)])⟩ ∧
    lambda_handler cfg ev (.response ⟨s, txt, some (.obj rkvs), dmsg⟩) =
      ⟨400, stdHeaders,
       jsonDumps (.obj [("success", .bool false),
         ("error", .str "Invalid response format received from FastAPI."),
         ("errorType", .str "ValueError")])⟩ := by
  obtain ⟨m0, h0⟩ := mh
  have hcond : ¬ (400 ≤ s ∧ s < 600) := by omega
  constructor
  · have hinner : innerTry (.response ⟨s, txt, none, dmsg⟩)
        = Except.ok (Sum.inl (backendErrorEnvelope 502 (.str dmsg))) := by
      simp only [innerTry, postAndValidate, hcond, if_false]
      rfl
    unfold lambda_handler handlerTry
    rw [hpre, hinner]
    rfl
  · have hinner : innerTry (.response ⟨s, txt, some (.obj rkvs), dmsg⟩)
        = Except.error (.valueError "Invalid response format received from FastAPI.") := by
      simp only [innerTry, postAndValidate, hcond, if_false, getResult, hr]
      rfl
    unfold lambda_handler handlerTry
    rw [hpre, hinner]
    rfl

/-- C3 witness: both amended branches at a concrete valid request, with a
non-JSON 200 body and with a 200 body `{"other": 1}`. -/
theorem invalid_backend_response_codes_witness :
    lambda_handler (some "https://api.example.com/process")
        ⟨.val (.obj [("message", .str "hola")]), none⟩
        (.response ⟨200, "oops", none, "Expecting value"⟩) =
      ⟨502, stdHeaders,
       jsonDumps (.obj [("success", .bool false),
         ("error", .str "Backend service error"),
         ("detail", .str "Expecting value")])⟩ ∧
    lambda_handler (some "https://api.example.com/process")
        ⟨.val (.obj [("message", .str "hola")]), none⟩
        (.response ⟨200, "oops", some (.obj [("other", .num 1)]), "Expecting value"⟩) =
      ⟨400, stdHeaders,
       jsonDumps (.obj [("success", .bool false),
         ("error", .str "Invalid response format received from FastAPI."),
         ("errorType", .str "ValueError")])⟩ :=
  invalid_backend_response_codes (some "https://api.example.com/process")
    ⟨.val (.obj [("message", .str "hola")]), none⟩
    (JValue.str "hola", JValue.arr []) 200 "oops" "Expecting value"
    [("other", .num 1)] rfl (by decide) (by decide) rfl

/-- C4 counterexample: a request whose `message` is present but empty is not
rejected — the source checks only `'message' not in body` — so with the
endpoint configured and the backend succeeding, the handler issues the POST
and returns 200, where the claim demands 400 and no call. -/
theorem empty_message_not_rejected_cex :
    (lambda_handler (some "https://api.example.com/process")
        ⟨.val (.obj [("message", .str "")]), none⟩
        (.response ⟨200, "t", some (.obj [("result", .str "ok")]), "d"⟩)).statusCode
        = 200 ∧
    backendCalled (some "https://api.example.com/process")
        ⟨.val (.obj [("message", .str "")]), none⟩ = true := by
  constructor <;> rfl

/-- C4 amended: for every inbound event whose parsed body is a mapping with no
`message` key, the handler returns statusCode 400 and issues no outbound
call; an empty-string `message`, however, is not rejected but forwarded. -/
theorem missing_message_rejected_without_call (cfg : Option String) (ev : Event)
    (kvs : List (String × JValue)) (bk : PostOutcome)
    (hbody : parseBody ev.body = Except.ok (JValue.obj kvs))
    (hm : dictGet kvs "message" = none) :
    (lambda_handler cfg ev bk).statusCode = 400 ∧ backendCalled cfg ev = false := by
  have hpre : prePhase cfg ev =
      Except.error (.valueError "Request body must contain a 'message' field.") := by
    unfold prePhase
    rw [checkClaims_ok, hbody]
    unfold extractRequest
    cases hkvs : kvs with
    | nil => rfl
    | cons a l =>
      rw [hkvs] at hm
      simp only [JValue.truthy, List.isEmpty_cons, Bool.not_false, pyContains, hm,
        Option.isSome_none, reduceCtorEq, if_false]
  constructor
  · unfold lambda_handler handlerTry
    rw [hpre]
    rfl
  · unfold backendCalled
    rw [hpre]

/-- C4 witness: body `{"text": "hi"}` (no `message`) is refused with 400 and
no backend call. -/
theorem missing_message_rejected_without_call_witness :
    (lambda_handler (some "https://api.example.com/process")
        ⟨.val (.obj [("text", .str "hi")]), none⟩
        (.response ⟨200, "t", some (.obj [("result", .str "ok")]), "d"⟩)).statusCode
        = 400 ∧
    backendCalled (some "https://api.example.com/process")
        ⟨.val (.obj [("text", .str "hi")]), none⟩ = false :=
  missing_message_rejected_without_call (some "https://api.example.com/process")
    ⟨.val (.obj [("text", .str "hi")]), none⟩ [("text", .str "hi")]
    (.response ⟨200, "t", some (.obj [("result", .str "ok")]), "d"⟩) rfl rfl

/-- C5 counterexample: `raise_for_status` raises only for statuses 400..599,
so a backend reply with status 600 and body `{"result": "ok"}` is treated as
success: the handler returns 200, not the backend's own status 600 with
`success: false` as the claim demands for every status at least 400. -/
theorem backend_status_600_cex :
    (lambda_handler (some "https://api.example.com/process")
        ⟨.val (.obj [("message", .str "hi")]), none⟩
        (.response ⟨600, "t", some (.obj [("result", .str "ok")]), "d"⟩)).statusCode
      = 200 := by
  rfl

/-- C5 amended: for every backend response whose status lies in 400..599 (the
range `raise_for_status` raises for), the handler propagates the backend's own
status as the envelope's statusCode, with `success: false` and a `detail`
field equal to the backend's error body parsed as JSON when it parses, else
the raw response text. -/
theorem backend_error_status_propagated (cfg : Option String) (ev : Event)
    (mh : JValue × JValue) (s : Nat) (txt dmsg : String) (oj : Option JValue)
    (hpre : prePhase cfg ev = Except.ok mh)
    (hs1 : 400 ≤ s) (hs2 : s < 600) :
    lambda_handler cfg ev (.response ⟨s, txt, oj, dmsg⟩) =
      ⟨s, stdHeaders,
       jsonDumps (.obj [("success", .bool false),
         ("error", .str "Backend service error"),
         ("detail", match oj with
                    | some j => j
                    | none => .str txt)])⟩ := by
  obtain ⟨m0, h0⟩ := mh
  have hcond : 400 ≤ s ∧ s < 600 := ⟨hs1, hs2⟩
  have hinner : innerTry (.response ⟨s, txt, oj, dmsg⟩)
      = Except.ok (Sum.inl (backendErrorEnvelope s
          (match oj with | some j => j | none => .str txt))) := by
    simp only [innerTry, postAndValidate, hcond, if_true]
    rfl
  unfold lambda_handler handlerTry
  rw [hpre, hinner]
  rfl

/-- C5 witness: backend 500 with body `{"detail": "boom"}` yields statusCode
500 and a `detail` field containing `"boom"`. -/
theorem backend_error_status_propagated_witness :
    lambda_handler (some "https://api.example.com/process")
        ⟨.val (.obj [("message", .str "hi")]), none⟩
        (.response ⟨500, "raw", some (.obj [("detail", .str "boom")]), "d"⟩) =
      ⟨500, stdHeaders,
       jsonDumps (.obj [("success", .bool false),
         ("error", .str "Backend service error"),
         ("detail", match (some (JValue.obj [("detail", JValue.str "boom")]) : Option JValue) with
                    | some j => j
                    | none => .str "raw")])⟩ :=
  backend_error_status_propagated (some "https://api.example.com/process")
    ⟨.val (.obj [("message", .str "hi")]), none⟩
    (JValue.str "hi", JValue.arr []) 500 "raw" "d"
    (some (.obj [("detail", .str "boom")])) rfl (by decide) (by decide)

/-- Every envelope the inner `except` arms can return carries the standard
headers and a `json.dumps` body. -/
theorem innerTry_inl_wf (bk : PostOutcome) (env : Envelope)
    (h : innerTry bk = Except.ok (Sum.inl env)) :
    env.headers = stdHeaders ∧ ∃ j, env.body = jsonDumps j := by
  unfold innerTry at h
  split at h
  · simp at h
  · split at h
    · simp only [Except.ok.injEq, Sum.inl.injEq] at h
      subst h
      exact ⟨rfl, _, rfl⟩
    · split at h
      · simp only [Except.ok.injEq, Sum.inl.injEq] at h
        subst h
        split
        · exact ⟨rfl, _, rfl⟩
        · exact ⟨rfl, _, rfl⟩
      · simp at h

/-- Every envelope the outer `try` body can return carries the standard
headers and a `json.dumps` body. -/
theorem handlerTry_ok_wf (cfg : Option String) (ev : Event) (bk : PostOutcome)
    (env : Envelope) (h : handlerTry cfg ev bk = Except.ok env) :
    env.headers = stdHeaders ∧ ∃ j, env.body = jsonDumps j := by
  unfold handlerTry at h
  split at h
  · simp at h
  · split at h
    · simp at h
    · rename_i heq
      simp only [Except.ok.injEq] at h
      subst h
      exact innerTry_inl_wf bk _ heq
    · split at h
      · simp only [Except.ok.injEq] at h
        subst h
        exact ⟨rfl, _, rfl⟩
      · simp at h

/-- Every reply of the handler carries the standard headers and a `json.dumps`
body. -/
theorem lambda_handler_wf (cfg : Option String) (ev : Event) (bk : PostOutcome) :
    (lambda_handler cfg ev bk).headers = stdHeaders ∧
    ∃ j, (lambda_handler cfg ev bk).body = jsonDumps j := by
  unfold lambda_handler
  split
  · rename_i env heq
    exact handlerTry_ok_wf cfg ev bk env heq
  · exact ⟨rfl, _, rfl⟩

/-- C2: for every inbound event and every backend outcome, the outer `except`
clause catches whatever was raised, so the handler returns a well-formed
envelope (statusCode, the standard headers, a JSON-string body) and never
propagates an exception. -/
theorem total_wellformed_reply (cfg : Option String) (ev : Event) (bk : PostOutcome) :
    lambda_handler_checked cfg ev bk = Except.ok (lambda_handler cfg ev bk) ∧
    (lambda_handler cfg ev bk).headers = stdHeaders ∧
    ∃ j, (lambda_handler cfg ev bk).body = jsonDumps j := by
  refine ⟨?_, lambda_handler_wf cfg ev bk⟩
  unfold lambda_handler_checked lambda_handler
  cases h : handlerTry cfg ev bk with
  | ok env => rfl
  | error e => cases e <;> rfl

/-- C8: an inbound `body` string that does not parse as JSON yields statusCode
400 with no backend call attempted; an already-structured `body` is used
as-is; an absent `body` is treated as the empty mapping. -/
theorem malformed_body_handling (cfg : Option String) (ev : Event) (bk : PostOutcome) :
    (ev.body = BodyVal.str none →
      (lambda_handler cfg ev bk).statusCode = 400 ∧ backendCalled cfg ev = false) ∧
    (∀ j, parseBody (BodyVal.val j) = Except.ok j) ∧
    parseBody BodyVal.absent = Except.ok (JValue.obj []) := by
  refine ⟨?_, fun j => rfl, rfl⟩
  intro hb
  have hpre : prePhase cfg ev =
      Except.error (.valueError "Invalid JSON format in request body") := by
    unfold prePhase
    rw [checkClaims_ok, hb]
    rfl
  constructor
  · unfold lambda_handler handlerTry
    rw [hpre]
    rfl
  · unfold backendCalled
    rw [hpre]

/-- C8 witness: a string body failing to parse, with the endpoint configured
and a backend that would have succeeded. -/
theorem malformed_body_handling_witness :
    (lambda_handler (some "https://api.example.com/process")
        ⟨BodyVal.str none, none⟩
        (.response ⟨200, "t", some (.obj [("result", .str "ok")]), "d"⟩)).statusCode
        = 400 ∧
    backendCalled (some "https://api.example.com/process")
        ⟨BodyVal.str none, none⟩ = false :=
  (malformed_body_handling (some "https://api.example.com/process")
    ⟨BodyVal.str none, none⟩
    (.response ⟨200, "t", some (.obj [("result", .str "ok")]), "d"⟩)).1 rfl

/-- C9: every reply, on every success and failure path, carries
`Content-Type: application/json` and the three CORS headers, and its body is
a JSON-encoded string. -/
theorem reply_headers_and_json_body (cfg : Option String) (ev : Event) (bk : PostOutcome) :
    ("Content-Type", "application/json") ∈ (lambda_handler cfg ev bk).headers ∧
    ("Access-Control-Allow-Origin", "*") ∈ (lambda_handler cfg ev bk).headers ∧
    ("Access-Control-Allow-Headers",
     "Content-Type,X-Amz-Date,Authorization,X-Api-Key,X-Amz-Security-Token")
      ∈ (lambda_handler cfg ev bk).headers ∧
    ("Access-Control-Allow-Methods", "OPTIONS,POST") ∈ (lambda_handler cfg ev bk).headers ∧
    ∃ j, (lambda_handler cfg ev bk).body = jsonDumps j := by
  obtain ⟨hh, hb⟩ := lambda_handler_wf cfg ev bk
  rw [hh]
  refine ⟨?_, ?_, ?_, ?_, hb⟩ <;> simp [stdHeaders]

/-- C10: two inbound events identical except for the presence or contents of
`requestContext.authorizer.claims` produce the same reply envelope — the
claims are read only for logging. -/
theorem claims_no_behavioral_effect (cfg : Option String) (b : BodyVal)
    (c c' : Option (List (String × String))) (bk : PostOutcome) :
    lambda_handler cfg ⟨b, c⟩ bk = lambda_handler cfg ⟨b, c'⟩ bk := by
  unfold lambda_handler handlerTry prePhase
  rw [checkClaims_ok, checkClaims_ok]

end SimpleChat

